import Mathlib

/-!
Verification of the core logic of `src/streamlit_app.py` (Skylight retail
dashboard): the OIDC session lifecycle (login completion, probe-failure
refresh, logout), the Elasticsearch filter builder, the per-metric result
normalizers, and the page-level wiring of filters to metric queries.

Python values are embedded as follows: an optional / nullable value is an
`Option`; Python truthiness of an optional string (`if tok:`) is `truthy`;
a Pandas DataFrame returned by `ElasticConnection.query` is an
`Option (List row)` (`none` models the `None` returned when the query raised);
monetary sums returned by the engine are exact decimals held in cents
(an `Int`), so that Python `round` (round-half-to-even on these exactly
representable values) is `pyRoundCents`.
-/

/-- Python truthiness of an optional string: `None` and `""` are falsy. -/
def truthy : Option String → Bool
  | none => false
  | some s => s != ""

/-! ## Filter builder (`configure_filters`, lines 124-145) -/

/-- One clause of the Elasticsearch bool filter built by `configure_filters`:
either the `range` clause on a field with `gte`/`lte`/`time_zone`, or a
`term` equality clause on a field. -/
inductive Clause where
  | range (field gte lte time_zone : String)
  | term (field value : String)
deriving DecidableEq, Repr

/-- Whether a clause is a `term` clause. -/
def Clause.isTerm : Clause → Bool
  | .term _ _ => true
  | _ => false

/-- Whether a clause is a `range` clause. -/
def Clause.isRange : Clause → Bool
  | .range _ _ _ _ => true
  | _ => false

/-- The bool filter shape returned by `configure_filters`:
a list of must clauses. -/
structure BoolFilter where
  must : List Clause
deriving DecidableEq, Repr

/-- The date substitution at the top of `configure_filters`:
`if not date: date = "today/d"` (a falsy date becomes the
start-of-current-day sentinel). -/
def dateOrToday : Option String → String
  | none => "today/d"
  | some s => if s = "" then "today/d" else s

/-- `configure_filters(date=None, reporting_group=None)` (lines 124-145):
always appends one range clause bounding `@timestamp` to `[date, date]` in
the configured time zone, then appends a `reporting.reporting_group` term
clause only when `reporting_group` is truthy. -/
def configure_filters (tz : String) (date : Option String)
    (reporting_group : Option String) : BoolFilter :=
  let d := dateOrToday date
  let base := [Clause.range "@timestamp" d d tz]
  match reporting_group with
  | none => ⟨base⟩
  | some g => if g != "" then ⟨base ++ [Clause.term "reporting.reporting_group" g]⟩ else ⟨base⟩

/-! ## Page wiring of filters (lines 472-482) -/

/-- The filter passed to `visitation_metric` at the page body (line 481):
`configure_filters(date_filter)` — the date only, no reporting group. The
`reporting_group` selection made in the UI is accepted here only to record
that the visitation filter does not depend on it. -/
def visitationFilters (tz : String) (date_filter : Option String)
    (_reporting_group : Option String) : BoolFilter :=
  configure_filters tz date_filter none

/-- The filter passed to every other metric at the page body (line 472):
`configure_filters(reporting_group=reporting_group, date=date_filter)`. -/
def dashboardFilters (tz : String) (date_filter : Option String)
    (reporting_group : Option String) : BoolFilter :=
  configure_filters tz date_filter reporting_group

/-! ## Result normalization for the total-sales metric (lines 226-248) -/

/-- A nullable numeric SQL value in an engine response row. Monetary sums
are exact decimals with two places, held in cents. -/
inductive SqlValue where
  | num (cents : Int)
  | null
deriving DecidableEq, Repr

/-- Python `round` applied to the exact decimal `cents / 100`:
round to the nearest integer, ties to the even integer
(the behavior of `round` on these exactly representable values). -/
def pyRoundCents (cents : Int) : Int :=
  let q := Int.ediv cents 100
  let r := Int.emod cents 100
  if r < 50 then q
  else if 50 < r then q + 1
  else if Int.emod q 2 = 0 then q else q + 1

/-- Group a reversed digit list into chunks of three, least significant
digits first. -/
def chunk3 : List Char → List (List Char)
  | [] => []
  | [a] => [[a]]
  | [a, b] => [[a, b]]
  | a :: b :: c :: rest => [a, b, c] :: chunk3 rest

/-- Python `f"\x7bn:,\x7d"` on a natural number: decimal digits with a comma
every three digits from the right. -/
def commatize (n : Nat) : String :=
  let digits := Nat.toDigits 10 n
  let chunks := (chunk3 digits.reverse).map List.reverse
  String.mk (List.intercalate [','] chunks.reverse)

/-- Python `f"\x7bx:,\x7d"` on an integer. -/
def fmtCommaInt (x : Int) : String :=
  if x < 0 then "-" ++ commatize x.natAbs else commatize x.natAbs

/-- Python `f"$\x7bx:,\x7d"`: the formatted integer with a dollar prefix. -/
def fmtDollar (x : Int) : String :=
  "$" ++ fmtCommaInt x

/-- The normalization inside `total_sales_metric` (lines 236-242):
`res.loc[0, "total_sales"]` then `f"$\x7bround(total_sales):,\x7d"`, with the
whole access wrapped in `try/except` that yields `"-"`. A `none` response
(the query raised), an empty frame (`.loc[0]` raises), and a null sum
(`round(None)` raises) all normalize to `"-"`. -/
def total_sales_value (res : Option (List SqlValue)) : String :=
  match res with
  | some (SqlValue.num c :: _) => fmtDollar (pyRoundCents c)
  | _ => "-"

/-! ## Session state and the OIDC flows (lines 154-223) -/

/-- The token pair held in `st.session_state`; `none` models a key that is
absent or set to Python `None`. -/
structure SessionState where
  access_token : Option String
  refresh_token : Option String
deriving DecidableEq, Repr

/-- The session before any login: no tokens stored. -/
def initialSession : SessionState := ⟨none, none⟩

/-- The rendering gate at lines 199-202: `st.stop()` halts the cycle when
both tokens are falsy. -/
def renderHalted (s : SessionState) : Bool :=
  !(truthy s.access_token) && !(truthy s.refresh_token)

/-- A response of the `authorize` code-exchange endpoint: the token fields
it may or may not carry. -/
structure AuthResponse where
  access_token : Option String
  refresh_token : Option String
deriving DecidableEq, Repr

/-- The code-exchange block at lines 185-197: given `login=true` with code
and state present, the tokens are stored if and only if the response carries
both (`if user.get("access_token") and user.get("refresh_token")`); otherwise
the session is left unchanged. -/
def completeLogin (s : SessionState) (user : AuthResponse) : SessionState :=
  if truthy user.access_token && truthy user.refresh_token then
    ⟨user.access_token, user.refresh_token⟩
  else s

/-- The outcome of the `refresh(refresh_token)` call at line 212: either the
provider responded (with or without an `error` field, and with whatever
token fields `refresh_res.get` finds), or the call raised a transport
exception. -/
inductive RefreshOutcome where
  | response (error : Bool) (access_token : Option String)
      (refresh_token : Option String)
  | exception
deriving DecidableEq, Repr

/-- A refresh failed: transport exception, or an `error` field in the
response. -/
def refreshFailed : RefreshOutcome → Bool
  | .exception => true
  | .response e _ _ => e

/-- The outcome of the gate-and-refresh phase of one render cycle:
the session state it leaves behind, the access token of the Elasticsearch
connection in scope when the metric queries run (`none` when that token is
Python `None`), whether `st.stop()` halted the cycle before the metrics,
and how many `refresh` / `logout` provider calls were made. -/
structure CycleAuthResult where
  session : SessionState
  connToken : Option String
  stopped : Bool
  refreshCalls : Nat
  logoutCalls : Nat
deriving DecidableEq, Repr

/-- The top-level gate and probe-and-refresh block (lines 199-223).
If both tokens are falsy the cycle stops (`st.stop()`). Otherwise a
connection is built from the current access token and `conn.get_info()` is
probed. On probe failure, `refresh` is called once: a transport exception
jumps to `except: logout_user()` (both tokens deleted, connection left as
built); a response first triggers `logout_user()` when it carries an
`error` field, and then — unconditionally — both session tokens are
overwritten with `refresh_res.get(...)` and the connection is rebuilt from
the new access token. Nothing stops the script after this block, so the
metric queries always run when the initial gate passed. -/
def gateAndRefresh (s : SessionState) (probeOk : Bool)
    (out : RefreshOutcome) : CycleAuthResult :=
  if renderHalted s then ⟨s, none, true, 0, 0⟩
  else
    let conn0 := s.access_token
    if probeOk then ⟨s, conn0, false, 0, 0⟩
    else
      match out with
      | .exception => ⟨⟨none, none⟩, conn0, false, 1, 1⟩
      | .response e a r =>
        ⟨⟨a, r⟩, a, false, 1, if e then 1 else 0⟩

/-! ## Relative-window resolver -/

/-- Result of the offset resolution: a resolved offset in minutes, or the
no-rows failure. -/
inductive OffsetResult where
  | ok (minutes : Nat)
  | noDataToday
deriving DecidableEq, Repr

/-- Modelled from the spec: rounding of `(now_utc - t0) / 60s` to the
nearest whole minute, a tie of 30 seconds rounding up (spec section 8:
74 min 30 s resolves to 75). -/
def roundToNearestMinute (deltaSeconds : Nat) : Nat :=
  (deltaSeconds + 30) / 60

/-- Modelled from the spec: the Relative-Window Resolver of spec section 4.3
(`resolveOffset`) is not present in `src/streamlit_app.py`; only its
description exists. With an explicit offset it is returned unchanged and no
probe is issued; otherwise one size-1 probe for the earliest event of the
day is issued (`probe` is its result: the earliest timestamp in epoch
seconds, or `none` for zero rows) and the rounded minute distance from
`nowUtc` is returned, or `noDataToday` on zero rows. The second component
counts the probe queries issued. -/
def resolveOffset (explicitOffsetMinutes : Option Nat) (nowUtc : Nat)
    (probe : Option Nat) : OffsetResult × Nat :=
  match explicitOffsetMinutes with
  | some m => (.ok m, 0)
  | none =>
    match probe with
    | none => (.noDataToday, 1)
    | some t0 => (.ok (roundToNearestMinute (nowUtc - t0)), 1)

/-! ## Metric query outcomes and the render cycle (lines 43-61, 226-303, 419-438, 474-482) -/

/-- What happened when one metric's SQL query ran against the engine:
a tabular result (rows of the metric's row type), an
`AuthenticationException`, or any other transport/engine exception. -/
inductive QueryOutcome (α : Type) where
  | frame (rows : List α)
  | authError
  | otherError
deriving DecidableEq

/-- `ElasticConnection.query` (lines 43-61): on success the frame is
returned; an `AuthenticationException` is swallowed (`pass`) and any other
exception is printed — in both failure cases the method returns `None`. -/
def ElasticConnection.query : QueryOutcome α → Option (List α)
  | .frame rows => some rows
  | .authError => none
  | .otherError => none

/-- The displayed value of a metric panel: `st.metric` is given either a
string or (for active terminals) an integer count. -/
inductive MetricValue where
  | text (s : String)
  | count (n : Int)
deriving DecidableEq, Repr

/-- The normalization inside `visitation_metric` (lines 432-436):
`res.loc[0, "entries"]` then `f"\x7bvisitation:,\x7d"`, any failure
yielding `"-"`. -/
def visitation_value (res : Option (List (Option Int))) : String :=
  match res with
  | some (some v :: _) => fmtCommaInt v
  | _ => "-"

/-- The normalization inside `active_terminals_metric` (lines 296-301):
the first row's `swiftpos_terminals + mashgin_terminals`; a missing row or a
null addend raises, yielding `"-"`. -/
def active_terminals_value (res : Option (List (Option Int × Option Int))) :
    MetricValue :=
  match res with
  | some ((some a, some b) :: _) => .count (a + b)
  | _ => .text "-"

/-- The normalization inside `highest_hour_metric` (lines 271-277): the
first row's `datetime` string is parsed and reformatted by the datetime
library (`fromisoformat` / `astimezone` / `strftime`, the external `fmtHour`
collaborator here, `none` modelling a parse exception); any failure yields
`"-"`. -/
def highest_hour_value (fmtHour : String → Option String)
    (res : Option (List String)) : String :=
  match res with
  | some (h :: _) =>
    match fmtHour h with
    | some s => s
    | none => "-"
  | _ => "-"

/-- The per-metric query outcomes of one render cycle. -/
structure CycleOutcomes where
  totalSales : QueryOutcome SqlValue
  highestHour : QueryOutcome String
  visitation : QueryOutcome (Option Int)
  activeTerminals : QueryOutcome (Option Int × Option Int)

/-- The values the four metric panels display in one render cycle. -/
structure RenderedMetrics where
  totalSales : String
  highestHour : String
  visitation : String
  activeTerminals : MetricValue
deriving DecidableEq, Repr

/-- The metric panels of one render cycle (lines 474-482): each panel's
value is its own normalizer applied to its own query's outcome; the page
body calls all four in sequence. -/
def renderCycle (fmtHour : String → Option String) (o : CycleOutcomes) :
    RenderedMetrics :=
  ⟨total_sales_value (ElasticConnection.query o.totalSales),
   highest_hour_value fmtHour (ElasticConnection.query o.highestHour),
   visitation_value (ElasticConnection.query o.visitation),
   active_terminals_value (ElasticConnection.query o.activeTerminals)⟩

/-- Replace only the total-sales query outcome of a cycle. -/
def setTotalSales (o : CycleOutcomes) (e : QueryOutcome SqlValue) :
    CycleOutcomes :=
  ⟨e, o.highestHour, o.visitation, o.activeTerminals⟩

/-- Replace only the highest-hour query outcome of a cycle. -/
def setHighestHour (o : CycleOutcomes) (e : QueryOutcome String) :
    CycleOutcomes :=
  ⟨o.totalSales, e, o.visitation, o.activeTerminals⟩

/-- Replace only the visitation query outcome of a cycle. -/
def setVisitation (o : CycleOutcomes) (e : QueryOutcome (Option Int)) :
    CycleOutcomes :=
  ⟨o.totalSales, o.highestHour, e, o.activeTerminals⟩

/-- Replace only the active-terminals query outcome of a cycle. -/
def setActiveTerminals (o : CycleOutcomes)
    (e : QueryOutcome (Option Int × Option Int)) : CycleOutcomes :=
  ⟨o.totalSales, o.highestHour, o.visitation, e⟩

/-- Sample per-metric outcomes used to instantiate the isolation theorem. -/
def sampleCycle : CycleOutcomes :=
  ⟨QueryOutcome.frame [SqlValue.num 100],
   QueryOutcome.frame ["2025-10-12T09:00:00.000Z"],
   QueryOutcome.frame [some 5],
   QueryOutcome.frame [(some 1, some 2)]⟩

/-- Sample datetime formatter used to instantiate the isolation theorem. -/
def sampleFmtHour : String → Option String := fun _ => some "9 AM"

/-! ## Theorems -/

/-- Claim C1: in every render cycle, the token refresh is called at most
once; in a cycle whose liveness probe (`conn.get_info()`) fails it is called
exactly once, and when that refresh fails — an `error` field in the response
or a transport exception — exactly one logout call is made, the refresh
never being re-attempted in that cycle. -/
theorem refresh_once_logout_once (s : SessionState) (probeOk : Bool)
    (out : RefreshOutcome) (hgate : renderHalted s = false) :
    (gateAndRefresh s probeOk out).refreshCalls ≤ 1 ∧
    (probeOk = false → (gateAndRefresh s probeOk out).refreshCalls = 1) ∧
    (probeOk = false → refreshFailed out = true →
      (gateAndRefresh s probeOk out).logoutCalls = 1) := by
  unfold gateAndRefresh
  rw [hgate]
  cases probeOk with
  | true => simp
  | false =>
    cases out with
    | exception => simp [refreshFailed]
    | response e a r => cases e <;> simp [refreshFailed]

/-- Witness for C1: a concrete authenticated session whose probe fails and
whose refresh answers with an error field makes exactly one refresh call and
exactly one logout call. -/
theorem refresh_once_logout_once_witness :
    (gateAndRefresh ⟨some "a", some "r"⟩ false
        (RefreshOutcome.response true none none)).refreshCalls = 1 ∧
    (gateAndRefresh ⟨some "a", some "r"⟩ false
        (RefreshOutcome.response true none none)).logoutCalls = 1 := by
  have h := refresh_once_logout_once ⟨some "a", some "r"⟩ false
    (RefreshOutcome.response true none none) (by decide)
  exact ⟨h.2.1 rfl, h.2.2 rfl rfl⟩

/-- Claim C2: completing login from an unauthenticated session stores both
tokens and passes the rendering gate exactly when the code-exchange response
carries both a (truthy) access token and refresh token; when either is
missing, no token is stored and the cycle is halted at the gate
(`st.stop()`). -/
theorem completeLogin_round_trip (user : AuthResponse) :
    (truthy user.access_token = true → truthy user.refresh_token = true →
      completeLogin initialSession user =
        ⟨user.access_token, user.refresh_token⟩ ∧
      renderHalted (completeLogin initialSession user) = false) ∧
    (¬(truthy user.access_token = true ∧ truthy user.refresh_token = true) →
      completeLogin initialSession user = initialSession ∧
      renderHalted (completeLogin initialSession user) = true) := by
  constructor
  · intro ha hr
    constructor
    · simp [completeLogin, ha, hr]
    · simp [completeLogin, ha, hr, renderHalted]
  · intro h
    have hc : ¬((truthy user.access_token && truthy user.refresh_token) = true) := by
      simpa [Bool.and_eq_true] using h
    constructor
    · unfold completeLogin
      rw [if_neg hc]
    · unfold completeLogin
      rw [if_neg hc]
      rfl

/-- Witness for C2: a response with both tokens authenticates; one with a
missing refresh token leaves the session unchanged and halted. -/
theorem completeLogin_round_trip_witness :
    completeLogin initialSession ⟨some "a", some "r"⟩ = ⟨some "a", some "r"⟩ ∧
    renderHalted (completeLogin initialSession ⟨some "a", some "r"⟩) = false ∧
    completeLogin initialSession ⟨some "a", none⟩ = initialSession ∧
    renderHalted (completeLogin initialSession ⟨some "a", none⟩) = true := by
  have h1 := (completeLogin_round_trip ⟨some "a", some "r"⟩).1 (by decide) (by decide)
  have h2 := (completeLogin_round_trip ⟨some "a", none⟩).2 (by decide)
  exact ⟨h1.1, h1.2, h2.1, h2.2⟩

/-- Claim C3: `resolveOffset` with an explicit offset returns it unchanged
with zero probe queries; with no explicit offset it issues exactly one probe
query and, when the probe finds an earliest event at `t0`, returns the
minute distance from now rounded to the nearest minute. -/
theorem resolveOffset_probe_discipline (m nowUtc t0 : Nat)
    (probe : Option Nat) :
    resolveOffset (some m) nowUtc probe = (OffsetResult.ok m, 0) ∧
    (resolveOffset none nowUtc probe).2 = 1 ∧
    (probe = some t0 →
      resolveOffset none nowUtc probe =
        (OffsetResult.ok (roundToNearestMinute (nowUtc - t0)), 1)) := by
  refine ⟨rfl, ?_, ?_⟩
  · cases probe <;> rfl
  · intro h
    subst h
    rfl

/-- Witness for C3: with the earliest event at epoch 0 and now at 4470 s
(74 min 30 s), no explicit offset resolves to 75 minutes with one probe,
while an explicit offset of 7 passes through with no probe. -/
theorem resolveOffset_probe_discipline_witness :
    resolveOffset (some 7) 4470 (some 0) = (OffsetResult.ok 7, 0) ∧
    resolveOffset none 4470 (some 0) = (OffsetResult.ok 75, 1) := by
  have h := resolveOffset_probe_discipline 7 4470 0 (some 0)
  refine ⟨h.1, ?_⟩
  rw [h.2.2 rfl]
  decide

/-- Claim C4 (violated by the code): after a probe failure, a refresh
response carrying an `error` field triggers `logout_user()`, but the script
then overwrites both session tokens with the response's (absent) tokens,
rebuilds the connection with a `None` access token and never stops, so the
metric queries of the cycle are still issued without a non-empty access
token. -/
theorem failed_refresh_still_issues_queries :
    (gateAndRefresh ⟨some "tok", some "rtok"⟩ false
        (RefreshOutcome.response true none none)).stopped = false ∧
    (gateAndRefresh ⟨some "tok", some "rtok"⟩ false
        (RefreshOutcome.response true none none)).connToken = none ∧
    (gateAndRefresh ⟨some "tok", some "rtok"⟩ false
        (RefreshOutcome.response true none none)).logoutCalls = 1 ∧
    (gateAndRefresh ⟨some "tok", some "rtok"⟩ false
        (RefreshOutcome.response true none none)).session = ⟨none, none⟩ := by
  decide

/-- Claim C5: when the reporting group is falsy (absent or empty), the
clause list built by `configure_filters` contains no term clause of any
kind. -/
theorem no_reporting_group_term (tz : String) (date rg : Option String)
    (hrg : truthy rg = false) :
    ∀ c ∈ (configure_filters tz date rg).must, c.isTerm = false := by
  intro c hc
  cases rg with
  | none =>
    simp [configure_filters] at hc
    subst hc
    rfl
  | some g =>
    have hg : (g != "") = false := by simpa [truthy] using hrg
    simp [configure_filters, hg] at hc
    subst hc
    rfl

/-- Witness for C5: with no reporting group, the single clause built for a
concrete date is not a term clause. -/
theorem no_reporting_group_term_witness :
    Clause.isTerm (Clause.range "@timestamp" "2025-10-12" "2025-10-12"
      "Australia/Adelaide") = false := by
  exact no_reporting_group_term "Australia/Adelaide" (some "2025-10-12") none
    (by decide) _ (by decide)

/-- Claim C6: for every date and reporting group, the built filter contains
exactly one range clause, bounding `@timestamp` to `[date, date]` in the
configured time zone, and a falsy date is replaced by the start-of-today
sentinel `"today/d"` in both bounds. -/
theorem single_range_clause (tz : String) (date rg : Option String) :
    ((configure_filters tz date rg).must.filter Clause.isRange) =
      [Clause.range "@timestamp" (dateOrToday date) (dateOrToday date) tz] ∧
    Clause.range "@timestamp" (dateOrToday date) (dateOrToday date) tz ∈
      (configure_filters tz date rg).must ∧
    (truthy date = false → dateOrToday date = "today/d") := by
  refine ⟨?_, ?_, ?_⟩
  · cases rg with
    | none => simp [configure_filters, Clause.isRange]
    | some g =>
      by_cases hg : g = ""
      · simp [configure_filters, hg, Clause.isRange]
      · have hg2 : (g != "") = true := by simpa using hg
        simp [configure_filters, hg2, Clause.isRange, Clause.isTerm]
  · cases rg with
    | none => simp [configure_filters]
    | some g =>
      by_cases hg : g = ""
      · simp [configure_filters, hg]
      · have hg2 : (g != "") = true := by simpa using hg
        simp [configure_filters, hg2]
  · intro hd
    cases date with
    | none => rfl
    | some s =>
      have hs : (s != "") = false := by simpa [truthy] using hd
      have hs2 : s = "" := by simpa using hs
      simp [dateOrToday, hs2]

/-- Witness for C6: with no date and the `event_retail` reporting group, the
filter holds exactly one range clause, on `"today/d"` in both bounds. -/
theorem single_range_clause_witness :
    ((configure_filters "Australia/Adelaide" none (some "event_retail")).must.filter
        Clause.isRange) =
      [Clause.range "@timestamp" "today/d" "today/d" "Australia/Adelaide"] ∧
    dateOrToday none = "today/d" := by
  have h := single_range_clause "Australia/Adelaide" none (some "event_retail")
  exact ⟨h.1, h.2.2 rfl⟩

/-- Claim C7: a query failure of any one metric (its query returning `None`
after the swallowed exception) renders the placeholder for that metric only,
leaving every other metric of the same cycle rendered exactly as it would
have been. -/
theorem metric_failure_isolated (fmtHour : String → Option String)
    (o : CycleOutcomes)
    (e1 : QueryOutcome SqlValue) (h1 : ElasticConnection.query e1 = none)
    (e2 : QueryOutcome String) (h2 : ElasticConnection.query e2 = none)
    (e3 : QueryOutcome (Option Int)) (h3 : ElasticConnection.query e3 = none)
    (e4 : QueryOutcome (Option Int × Option Int))
    (h4 : ElasticConnection.query e4 = none) :
    ((renderCycle fmtHour (setTotalSales o e1)).totalSales = "-" ∧
      (renderCycle fmtHour (setTotalSales o e1)).highestHour =
        (renderCycle fmtHour o).highestHour ∧
      (renderCycle fmtHour (setTotalSales o e1)).visitation =
        (renderCycle fmtHour o).visitation ∧
      (renderCycle fmtHour (setTotalSales o e1)).activeTerminals =
        (renderCycle fmtHour o).activeTerminals) ∧
    ((renderCycle fmtHour (setHighestHour o e2)).highestHour = "-" ∧
      (renderCycle fmtHour (setHighestHour o e2)).totalSales =
        (renderCycle fmtHour o).totalSales ∧
      (renderCycle fmtHour (setHighestHour o e2)).visitation =
        (renderCycle fmtHour o).visitation ∧
      (renderCycle fmtHour (setHighestHour o e2)).activeTerminals =
        (renderCycle fmtHour o).activeTerminals) ∧
    ((renderCycle fmtHour (setVisitation o e3)).visitation = "-" ∧
      (renderCycle fmtHour (setVisitation o e3)).totalSales =
        (renderCycle fmtHour o).totalSales ∧
      (renderCycle fmtHour (setVisitation o e3)).highestHour =
        (renderCycle fmtHour o).highestHour ∧
      (renderCycle fmtHour (setVisitation o e3)).activeTerminals =
        (renderCycle fmtHour o).activeTerminals) ∧
    ((renderCycle fmtHour (setActiveTerminals o e4)).activeTerminals =
        MetricValue.text "-" ∧
      (renderCycle fmtHour (setActiveTerminals o e4)).totalSales =
        (renderCycle fmtHour o).totalSales ∧
      (renderCycle fmtHour (setActiveTerminals o e4)).highestHour =
        (renderCycle fmtHour o).highestHour ∧
      (renderCycle fmtHour (setActiveTerminals o e4)).visitation =
        (renderCycle fmtHour o).visitation) := by
  refine ⟨⟨?_, rfl, rfl, rfl⟩, ⟨?_, rfl, rfl, rfl⟩,
    ⟨?_, rfl, rfl, rfl⟩, ⟨?_, rfl, rfl, rfl⟩⟩
  · show total_sales_value (ElasticConnection.query e1) = "-"
    rw [h1]
    rfl
  · show highest_hour_value fmtHour (ElasticConnection.query e2) = "-"
    rw [h2]
    rfl
  · show visitation_value (ElasticConnection.query e3) = "-"
    rw [h3]
    rfl
  · show active_terminals_value (ElasticConnection.query e4) =
      MetricValue.text "-"
    rw [h4]
    rfl

/-- Witness for C7: failing only the total-sales query of a concrete cycle
renders its placeholder while the visitation panel is unchanged. -/
theorem metric_failure_isolated_witness :
    (renderCycle sampleFmtHour
        (setTotalSales sampleCycle QueryOutcome.otherError)).totalSales = "-" ∧
    (renderCycle sampleFmtHour
        (setTotalSales sampleCycle QueryOutcome.otherError)).visitation =
      (renderCycle sampleFmtHour sampleCycle).visitation := by
  have h := metric_failure_isolated sampleFmtHour sampleCycle
    QueryOutcome.otherError rfl QueryOutcome.otherError rfl
    QueryOutcome.otherError rfl QueryOutcome.otherError rfl
  exact ⟨h.1.1, h.1.2.2.1⟩

/-- Claim C8: a response with no rows (or a swallowed query failure, or a
null sum) normalizes to the `"-"` placeholder, which differs from the
`"$0"` produced by a row whose value is zero; no empty result is coerced to
a numeric zero. -/
theorem empty_result_distinct_from_zero :
    total_sales_value (some []) = "-" ∧
    total_sales_value none = "-" ∧
    total_sales_value (some [SqlValue.null]) = "-" ∧
    total_sales_value (some [SqlValue.num 0]) = "$0" ∧
    ("-" : String) ≠ "$0" := by
  refine ⟨rfl, rfl, rfl, by decide, by decide⟩

/-- Counterexample to claim C9: a total-sales sum of 15342.50 does not
normalize to `"$15,343"`. -/
theorem total_sales_rounding_counterexample :
    total_sales_value (some [SqlValue.num 1534250]) ≠ "$15,343" := by
  decide

/-- Claim C9 as amended: a total-sales sum of 15342.50 normalizes to
`"$15,342"` — Python `round` rounds the exact tie 15342.5 to the even
neighbour 15342, which is then thousands-separated and currency-prefixed. -/
theorem total_sales_rounds_half_to_even :
    total_sales_value (some [SqlValue.num 1534250]) = "$15,342" := by
  decide

/-- Claim C10: the filter the page passes to the Visitors metric is built
from the date only — it carries the range clause but never any term clause,
whatever reporting group is selected — while the filter passed to the other
metrics does carry the reporting-group term whenever a non-empty group is
selected. -/
theorem visitation_filter_unscoped (tz : String) (date rg : Option String) :
    (∀ c ∈ (visitationFilters tz date rg).must, c.isTerm = false) ∧
    Clause.range "@timestamp" (dateOrToday date) (dateOrToday date) tz ∈
      (visitationFilters tz date rg).must ∧
    (∀ g : String, g ≠ "" →
      Clause.term "reporting.reporting_group" g ∈
        (dashboardFilters tz date (some g)).must) := by
  refine ⟨?_, ?_, ?_⟩
  · intro c hc
    simp [visitationFilters, configure_filters] at hc
    subst hc
    rfl
  · simp [visitationFilters, configure_filters]
  · intro g hg
    have hg2 : (g != "") = true := by simpa using hg
    simp [dashboardFilters, configure_filters, hg2]

/-- Witness for C10: with the `event_retail` group selected, the visitation
filter's only clause is not a term clause, while the dashboard filter does
contain the reporting-group term. -/
theorem visitation_filter_unscoped_witness :
    Clause.isTerm (Clause.range "@timestamp" "2025-10-12" "2025-10-12"
      "Australia/Adelaide") = false ∧
    Clause.term "reporting.reporting_group" "event_retail" ∈
      (dashboardFilters "Australia/Adelaide" (some "2025-10-12")
        (some "event_retail")).must := by
  have h := visitation_filter_unscoped "Australia/Adelaide"
    (some "2025-10-12") (some "event_retail")
  exact ⟨h.1 _ (by decide), h.2.2 "event_retail" (by decide)⟩
